import Mathlib

/-!
Shallow embedding of the ZenML "Model Control Plane" client facade
(`src/zenml/model/model_version.py`) and of the YAML/JSON file helpers
(`src/zenml/utils/yaml_utils.py`).

The remote metadata store (`zen_store`), the `ModelStages` enum, the
exception classes and the file/YAML/JSON libraries are not part of the
visible sources; they are modelled from the spec and from the behaviour
the visible code relies on (each such definition carries a
`Modelled from the spec:` doc comment).  All facade logic is translated
line by line from the Python source.
-/

namespace Zen

/-- Errors (Python exceptions) that flow through the facade:
`KeyError`, `EntityExistsError`, `ReservedNameError` from
`zenml.exceptions`, `RuntimeError` from `get_step_context`. -/
inductive Err where
  | keyError
  | entityExists
  | reservedName
  | runtimeError
  deriving DecidableEq, Repr

/-- The value stored in the `version` field of `ModelVersion`
(`Optional[Union[ModelStages, int, str]]`, the `Optional` layer is an
outer `Option`). -/
inductive VersionVal where
  | stage (s : String)
  | int (n : Int)
  | str (s : String)
  deriving DecidableEq, Repr

/-- Python truthiness of the `version` field: `None`, `0` and `""` are
falsy; a `ModelStages` member is a non-empty string and hence truthy. -/
def pyTruthy : Option VersionVal → Bool
  | Option.none => false
  | some (VersionVal.stage _) => true
  | some (VersionVal.int n) => n != 0
  | some (VersionVal.str s) => s ≠ ""

/-- Python `str(...)` of a `version` value; ZenML's `StrEnum` overrides
`__str__` to return the enum value, `str(None) = "None"`. -/
def pyStr : Option VersionVal → String
  | Option.none => "None"
  | some (VersionVal.stage s) => s
  | some (VersionVal.int n) => toString n
  | some (VersionVal.str s) => s

/-- Python `str.isnumeric()` restricted to ASCII digits: true iff the
string is non-empty and all characters are digits. -/
def isNumericStr (s : String) : Bool :=
  s ≠ "" && s.toList.all Char.isDigit

/-- Lower-case one ASCII character. -/
def lowerChar (c : Char) : Char :=
  if 65 ≤ c.toNat ∧ c.toNat ≤ 90 then Char.ofNat (c.toNat + 32) else c

/-- Python `str.lower()` restricted to ASCII. -/
def strLower (s : String) : String := String.mk (s.data.map lowerChar)

/-- Python `==` on `version` values: `ModelStages` is a `str` subclass,
so a stage compares equal to the equal plain string; `int` never equals
`str`. -/
def pyVersionEqV : VersionVal → VersionVal → Bool
  | VersionVal.stage a, VersionVal.stage b => a == b
  | VersionVal.stage a, VersionVal.str b => a == b
  | VersionVal.str a, VersionVal.stage b => a == b
  | VersionVal.str a, VersionVal.str b => a == b
  | VersionVal.int a, VersionVal.int b => a == b
  | _, _ => false

/-- Python `==` on the optional `version` field (`None == None` is `True`). -/
def pyVersionEq : Option VersionVal → Option VersionVal → Bool
  | Option.none, Option.none => true
  | some a, some b => pyVersionEqV a b
  | _, _ => false

/-- Modelled from the spec: `ModelStages.values()` from `zenml.enums`
(not under the visible sources) — the possible stages of a model
version. -/
def modelStagesValues : List String :=
  ["none", "staging", "production", "archived"]

/-- The client-side `ModelVersion` pydantic object
(`zenml.model.model_version.ModelVersion`).  The three `PrivateAttr`
fields `_model_id`, `_id`, `_number` start as `None`; UUIDs are
modelled as `Nat` identifiers. -/
structure ModelVersion where
  name : String
  license : Option String := Option.none
  description : Option String := Option.none
  audience : Option String := Option.none
  use_cases : Option String := Option.none
  limitations : Option String := Option.none
  trade_offs : Option String := Option.none
  ethics : Option String := Option.none
  tags : Option (List String) := Option.none
  version : Option VersionVal := Option.none
  save_models_to_registry : Bool := true
  suppress_class_validation_warnings : Bool := false
  was_created_in_this_run : Bool := false
  priv_model_id : Option Nat := Option.none
  priv_id : Option Nat := Option.none
  priv_number : Option Nat := Option.none
  deriving DecidableEq, Repr

/-- A model record held by the store (`ModelResponseModel`): the fields
the visible code reads or supplies in `ModelRequestModel`. -/
structure MRecord where
  id : Nat
  name : String
  license : Option String := Option.none
  description : Option String := Option.none
  audience : Option String := Option.none
  use_cases : Option String := Option.none
  limitations : Option String := Option.none
  trade_offs : Option String := Option.none
  ethics : Option String := Option.none
  tags : Option (List String) := Option.none
  deriving DecidableEq, Repr

/-- A model-version record held by the store
(`ModelVersionResponseModel`): id, owning model id, name, number and
stage. -/
structure MVRecord where
  id : Nat
  modelId : Nat
  name : String
  number : Nat
  stage : Option String := Option.none
  deriving DecidableEq, Repr

/-- Modelled from the spec: the remote metadata store behind
`zenml_client.zen_store` (not under the visible sources).  `calls`
counts every store round-trip, so "no store call" is `calls` staying
unchanged. -/
structure Store where
  models : List MRecord := []
  versions : List MVRecord := []
  nextId : Nat := 0
  calls : Nat := 0
  deriving DecidableEq, Repr

/-- One store round-trip. -/
def Store.bump (s : Store) : Store := { s with calls := s.calls + 1 }

/-- Modelled from the spec: `zen_store.get_model(model_name_or_id)` —
fetch a model by name, `KeyError` if absent. -/
def Store.getModel (s : Store) (name : String) : Store × Except Err MRecord :=
  (s.bump,
    match s.models.find? (fun m => m.name == name) with
    | some m => Except.ok m
    | Option.none => Except.error Err.keyError)

/-- Modelled from the spec: `zen_store.create_model(model_request)` —
create a model, `EntityExistsError` if one with that name exists. -/
def Store.createModel (s : Store) (mv : ModelVersion) : Store × Except Err MRecord :=
  let s' := s.bump
  if s.models.any (fun m => m.name == mv.name) then
    (s', Except.error Err.entityExists)
  else
    let m : MRecord :=
      { id := s.nextId, name := mv.name, license := mv.license,
        description := mv.description, audience := mv.audience,
        use_cases := mv.use_cases, limitations := mv.limitations,
        trade_offs := mv.trade_offs, ethics := mv.ethics, tags := mv.tags }
    ({ s' with models := s'.models ++ [m], nextId := s'.nextId + 1 },
      Except.ok m)

/-- Modelled from the spec (docstring of `_get_or_create_model_version`):
how the store resolves a `version` identifier among the versions of one
model — an integer or digit string fetches by number, a stage (or a
string equal to a stage value) fetches by stage, any other string
fetches by name. -/
def resolveVersion (vs : List MVRecord) : VersionVal → Option MVRecord
  | VersionVal.int n => vs.find? (fun r => (r.number : Int) == n)
  | VersionVal.stage st => vs.find? (fun r => r.stage == some st)
  | VersionVal.str s =>
      if isNumericStr s then vs.find? (fun r => toString r.number == s)
      else if modelStagesValues.contains s then
        vs.find? (fun r => r.stage == some s)
      else vs.find? (fun r => r.name == s)

/-- Modelled from the spec:
`zen_store.get_model_version(model_name_or_id, model_version_name_or_number_or_id)`
— resolve the owning model by name, then the version per
`resolveVersion`; `KeyError` if either is absent. -/
def Store.getModelVersion (s : Store) (modelName : String)
    (v : Option VersionVal) : Store × Except Err MVRecord :=
  (s.bump,
    match s.models.find? (fun m => m.name == modelName) with
    | Option.none => Except.error Err.keyError
    | some m =>
        match v with
        | Option.none => Except.error Err.keyError
        | some vv =>
            match resolveVersion (s.versions.filter (fun r => r.modelId == m.id)) vv with
            | some r => Except.ok r
            | Option.none => Except.error Err.keyError)

/-- The versions of one model held by the store. -/
def Store.versionsOf (s : Store) (modelId : Nat) : List MVRecord :=
  s.versions.filter (fun r => r.modelId == modelId)

/-- Modelled from the spec:
`zen_store.create_model_version(model_version)` — the server assigns the
next number for the model and defaults the name to the number's string;
`EntityExistsError` if a version with the resulting name exists. -/
def Store.createModelVersion (s : Store) (modelId : Nat)
    (name : Option String) : Store × Except Err MVRecord :=
  let s' := s.bump
  let vs := s.versionsOf modelId
  let number := (vs.map (fun r => r.number)).foldr max 0 + 1
  let nm := name.getD (toString number)
  if vs.any (fun r => r.name == nm) then
    (s', Except.error Err.entityExists)
  else
    let r : MVRecord :=
      { id := s.nextId, modelId := modelId, name := nm, number := number,
        stage := Option.none }
    ({ s' with versions := s'.versions ++ [r], nextId := s'.nextId + 1 },
      Except.ok r)

/-- `ModelVersion._get_or_create_model` (translated from
`model_version.py`, lines 327-371).  `interf` is interference from
concurrent clients, applied to the store between the failing `get_model`
and the `create_model` call — the window the code's `EntityExistsError`
backup logic is written for; `id` means no interference.  The Python
`finally` runs `get_model` after the `create_model` attempt in every
case. -/
def getOrCreateModel (interf : Store → Store) (s : Store)
    (mv : ModelVersion) : Store × ModelVersion × Except Err MRecord :=
  match s.getModel mv.name with
  | (s₁, Except.ok m) =>
      (s₁, { mv with priv_model_id := some m.id }, Except.ok m)
  | (s₁, Except.error Err.keyError) =>
      let s₂ := interf s₁
      match s₂.createModel mv with
      | (s₃, Except.ok _) =>
          match s₃.getModel mv.name with
          | (s₄, Except.ok m) =>
              (s₄, { mv with priv_model_id := some m.id }, Except.ok m)
          | (s₄, Except.error e) => (s₄, mv, Except.error e)
      | (s₃, Except.error Err.entityExists) =>
          match s₃.getModel mv.name with
          | (s₄, Except.ok m) =>
              (s₄, { mv with priv_model_id := some m.id }, Except.ok m)
          | (s₄, Except.error e) => (s₄, mv, Except.error e)
      | (s₃, Except.error e) =>
          match s₃.getModel mv.name with
          | (s₄, _) => (s₄, mv, Except.error e)
  | (s₁, Except.error e) => (s₁, mv, Except.error e)

/-- `ModelVersion._get_model_version` (lines 373-385): a plain store
fetch by the configured name and version. -/
def getModelVersionOf (s : Store) (mv : ModelVersion) :
    Store × Except Err MVRecord :=
  s.getModelVersion mv.name mv.version

/-- The step context seen through `get_step_context()`: the pipeline
run's configured model version and the step configs' model versions, in
order. -/
structure StepContext where
  pipelineMV : Option ModelVersion := Option.none
  stepMVs : List (Option ModelVersion) := []

/-- The test applied to a config's model version (lines 430-434 and
438-443): it is set, was created in this run, and has the given model
name. -/
def mvMatches (name : String) : Option ModelVersion → Bool
  | some smv => smv.was_created_in_this_run && smv.name == name
  | Option.none => false

/-- The `if not self.version` block of `_get_or_create_model_version`
(lines 421-445): when no version is configured, adopt the version of a
same-named model version already created in this run by the pipeline
config or, failing that, by the first matching step config.  `ctx =
none` is `get_step_context` raising `RuntimeError`. -/
def substituteFromContext (ctx : Option StepContext)
    (mv : ModelVersion) : ModelVersion :=
  match ctx with
  | Option.none => mv
  | some c =>
      let fromSteps : ModelVersion :=
        match c.stepMVs.find? (mvMatches mv.name) with
        | some (some smv) => { mv with version := smv.version }
        | _ => mv
      match c.pipelineMV with
      | some p =>
          if p.was_created_in_this_run && p.name == mv.name then
            { mv with version := p.version }
          else fromSteps
      | Option.none => fromSteps

/-- Whether the run context offers a model version of the given model
name created in this run (the condition under which the `if not
self.version` block substitutes a version). -/
def ctxHasMatch (ctx : Option StepContext) (name : String) : Bool :=
  match ctx with
  | Option.none => false
  | some c =>
      mvMatches name c.pipelineMV || c.stepMVs.any (mvMatches name)

/-- Store the response's ids on the private attributes (lines 480-482):
`self._id`, `self._model_id`, `self._number`. -/
def storeResponseIds (mv : ModelVersion) (r : MVRecord) : ModelVersion :=
  { mv with priv_id := some r.id, priv_model_id := some r.modelId,
            priv_number := some r.number }

/-- The `except KeyError` handler of `_get_or_create_model_version`
(lines 450-479): raise `ReservedNameError` for a stage-like or numeric
version name, otherwise create the model version, adopt its name as
`version` and mark `was_created_in_this_run`.  `requestName` is the
`name` of the `ModelVersionRequestModel`, built from `self.version`
before the try block. -/
def createVersionPath (s : Store) (mv : ModelVersion) (model : MRecord)
    (requestName : Option String) :
    Store × ModelVersion × Except Err MVRecord :=
  if pyTruthy mv.version
      && modelStagesValues.contains (strLower (pyStr mv.version)) then
    (s, mv, Except.error Err.reservedName)
  else if isNumericStr (pyStr mv.version) then
    (s, mv, Except.error Err.reservedName)
  else
    match s.createModelVersion model.id requestName with
    | (s', Except.ok r) =>
        let mv' := { mv with version := some (VersionVal.str r.name),
                             was_created_in_this_run := true }
        (s', storeResponseIds mv' r, Except.ok r)
    | (s', Except.error e) => (s', mv, Except.error e)

/-- `ModelVersion._get_or_create_model_version` (lines 387-483),
translated clause by clause: get-or-create the model; build the version
request from the current `version`; substitute the version from the run
context when none is configured; fetch when a version is (now)
configured, else fall to the creation path; a `KeyError` from the fetch
also falls to the creation path; on success store the response ids. -/
def getOrCreateModelVersion (ctx : Option StepContext) (s : Store)
    (mv : ModelVersion) : Store × ModelVersion × Except Err MVRecord :=
  match getOrCreateModel (fun st => st) s mv with
  | (s₁, mv₁, Except.error e) => (s₁, mv₁, Except.error e)
  | (s₁, mv₁, Except.ok model) =>
      let requestName : Option String := mv₁.version.map (fun v => pyStr (some v))
      let mv₂ := if pyTruthy mv₁.version then mv₁
                 else substituteFromContext ctx mv₁
      if pyTruthy mv₂.version then
        match getModelVersionOf s₁ mv₂ with
        | (s₂, Except.ok r) => (s₂, storeResponseIds mv₂ r, Except.ok r)
        | (s₂, Except.error Err.keyError) =>
            createVersionPath s₂ mv₂ model requestName
        | (s₂, Except.error e) => (s₂, mv₂, Except.error e)
      else
        createVersionPath s₁ mv₂ model requestName

/-- The `id` property (lines 92-110): resolve only when `_id` is still
`None`, swallow `ReservedNameError`, return `self._id`. -/
def idProp (ctx : Option StepContext) (s : Store) (mv : ModelVersion) :
    Store × ModelVersion × Except Err (Option Nat) :=
  if mv.priv_id.isNone then
    match getOrCreateModelVersion ctx s mv with
    | (s', mv', Except.ok _) => (s', mv', Except.ok mv'.priv_id)
    | (s', mv', Except.error Err.reservedName) =>
        (s', mv', Except.ok mv'.priv_id)
    | (s', mv', Except.error e) => (s', mv', Except.error e)
  else (s, mv, Except.ok mv.priv_id)

/-- The `model_id` property (lines 112-121): resolve the model only when
`_model_id` is still `None`; no exception is caught. -/
def modelIdProp (s : Store) (mv : ModelVersion) :
    Store × ModelVersion × Except Err (Option Nat) :=
  if mv.priv_model_id.isNone then
    match getOrCreateModel (fun st => st) s mv with
    | (s', mv', Except.ok _) => (s', mv', Except.ok mv'.priv_model_id)
    | (s', mv', Except.error e) => (s', mv', Except.error e)
  else (s, mv, Except.ok mv.priv_model_id)

/-- The `number` property (lines 123-141): resolve only when `_number`
is still `None`, swallow `ReservedNameError`, return `self._number`. -/
def numberProp (ctx : Option StepContext) (s : Store) (mv : ModelVersion) :
    Store × ModelVersion × Except Err (Option Nat) :=
  if mv.priv_number.isNone then
    match getOrCreateModelVersion ctx s mv with
    | (s', mv', Except.ok _) => (s', mv', Except.ok mv'.priv_number)
    | (s', mv', Except.error Err.reservedName) =>
        (s', mv', Except.ok mv'.priv_number)
    | (s', mv', Except.error e) => (s', mv', Except.error e)
  else (s, mv, Except.ok mv.priv_number)

/-- The `stage` property (lines 143-162): always resolve, return the
response's stage when truthy, `None` otherwise, and `None` on
`ReservedNameError`. -/
def stageProp (ctx : Option StepContext) (s : Store) (mv : ModelVersion) :
    Store × ModelVersion × Except Err (Option String) :=
  match getOrCreateModelVersion ctx s mv with
  | (s', mv', Except.ok r) =>
      (s', mv', Except.ok (match r.stage with
        | some st => if st ≠ "" then some st else Option.none
        | Option.none => Option.none))
  | (s', mv', Except.error Err.reservedName) =>
      (s', mv', Except.ok Option.none)
  | (s', mv', Except.error e) => (s', mv', Except.error e)

/-- `ModelVersion.__eq__` (lines 275-292): different names compare
unequal, equal name and version compare equal, both without a store
round-trip; otherwise both sides are resolved and their ids compared. -/
def eqMV (ctx : Option StepContext) (s : Store) (a b : ModelVersion) :
    Store × Except Err Bool :=
  if a.name != b.name then (s, Except.ok false)
  else if a.name == b.name && pyVersionEq a.version b.version then
    (s, Except.ok true)
  else
    match getOrCreateModelVersion ctx s a with
    | (s₁, _, Except.ok ra) =>
        match getOrCreateModelVersion ctx s₁ b with
        | (s₂, _, Except.ok rb) => (s₂, Except.ok (ra.id == rb.id))
        | (s₂, _, Except.error e) => (s₂, Except.error e)
    | (s₁, _, Except.error e) => (s₁, Except.error e)

/-- `ModelVersion.__hash__` (lines 498-514): the hash is that of
`str(name) ++ "::" ++ str(version)`; the joined string is the model of
the hash (Python's string hash is injective up to collisions we do not
model). -/
def hashMV (mv : ModelVersion) : String :=
  mv.name ++ "::" ++ pyStr mv.version

/-! ## File utilities (`zenml.utils.yaml_utils`)

File contents are kept symbolically: a file written by `write_yaml` /
`write_json` holds the serialized document, a file written by
`write_json_string` holds a raw string.  The textual layout produced by
`yaml.dump` / `json.dumps` (including key ordering under `sort_keys`)
is abstracted away, since Python dict equality is order-insensitive and
the visible code never inspects the text.  Dict values are an arbitrary
type `V` (the dicts are `Dict[Any, Any]`). -/

/-- Errors raised by the file helpers: `FileNotFoundError`, a parse
error (`json.JSONDecodeError` / `yaml.YAMLError`), and `AttributeError`
(calling `.update` on a non-dict). -/
inductive FErr where
  | fileNotFound
  | parseError
  | attributeError
  deriving DecidableEq, Repr

/-- Modelled from the spec: a file path as seen by the helpers —
whether `io_utils.is_remote` holds of it (a remote scheme prefix such
as `s3://`), its parent directory `Path(file_path).parent`, and its
base name. -/
structure FPath where
  remote : Bool := false
  dir : String
  base : String
  deriving DecidableEq, Repr

/-- A parsed top-level document: a mapping, `None` (what `safe_load`
returns for an empty file), or some other scalar/sequence document kept
opaque. -/
inductive PyTop (V : Type) where
  | dict (d : List (String × V))
  | pnone
  | scalar (s : String)
  deriving DecidableEq, Repr

/-- The symbolic contents of one file: a YAML document, a JSON
document, or a raw string (from `write_json_string`). -/
inductive FileData (V : Type) where
  | yamlData (t : PyTop V)
  | jsonData (t : PyTop V)
  | rawData (s : String)
  deriving DecidableEq, Repr

/-- Modelled from the spec: the filesystem seen through `zenml.io`
— the set of existing directories and the files with their contents. -/
structure FS (V : Type) where
  dirs : List String := []
  files : List (FPath × FileData V) := []
  deriving DecidableEq, Repr

/-- Modelled from the spec: `fileio.isdir`. -/
def FS.isdir (fs : FS V) (d : String) : Bool := fs.dirs.contains d

/-- Contents of the file at a path, if it exists. -/
def FS.readData (fs : FS V) (p : FPath) : Option (FileData V) :=
  (fs.files.find? (fun e => e.1 == p)).map (fun e => e.2)

/-- Modelled from the spec: `fileio.exists`. -/
def FS.fileExists (fs : FS V) (p : FPath) : Bool := (fs.readData p).isSome

/-- Modelled from the spec:
`io_utils.write_file_contents_as_string` — create or overwrite the file. -/
def FS.writeData (fs : FS V) (p : FPath) (d : FileData V) : FS V :=
  { fs with files := fs.files.filter (fun e => !(e.1 == p)) ++ [(p, d)] }

/-- Modelled from the spec: `yaml.safe_load` on our symbolic file
contents — a YAML document parses to itself, a JSON document is valid
YAML, a non-empty raw string parses as a plain scalar and an empty file
as `None`. -/
def yamlSafeLoad : FileData V → PyTop V
  | FileData.yamlData t => t
  | FileData.jsonData t => t
  | FileData.rawData s => if s = "" then PyTop.pnone else PyTop.scalar s

/-- Modelled from the spec: `json.loads` on our symbolic file contents
— a JSON document parses to itself, anything else raises
`JSONDecodeError`. -/
def jsonLoads : FileData V → Except FErr (PyTop V)
  | FileData.jsonData t => Except.ok t
  | _ => Except.error FErr.parseError

/-- `write_yaml` (`yaml_utils.py`, lines 27-48): for a non-remote path
whose parent directory is missing raise `FileNotFoundError`, otherwise
dump the dict to the file.  `sort_keys` only orders the emitted text
and is absorbed by the symbolic document. -/
def write_yaml (fs : FS V) (p : FPath) (contents : List (String × V)) :
    Except FErr (FS V) :=
  if !p.remote && !(fs.isdir p.dir) then
    Except.error FErr.fileNotFound
  else
    Except.ok (fs.writeData p (FileData.yamlData (PyTop.dict contents)))

/-- `read_yaml` (lines 70-88): `FileNotFoundError` when the file does
not exist, else the `safe_load` of its contents. -/
def read_yaml (fs : FS V) (p : FPath) : Except FErr (PyTop V) :=
  match fs.readData p with
  | some d => Except.ok (yamlSafeLoad d)
  | Option.none => Except.error FErr.fileNotFound

/-- First value for a key in an association-list dict. -/
def lookupD (d : List (String × V)) (k : String) : Option V :=
  (d.find? (fun e => e.1 == k)).map (fun e => e.2)

/-- One entry of the updated dict: a key present in `c` takes the value
from `c`, any other entry is kept. -/
def updEntry (c : List (String × V)) (e : String × V) : String × V :=
  match lookupD c e.1 with
  | some v => (e.1, v)
  | Option.none => e

/-- Python `dict.update`: existing keys keep their position and take
the new value, new keys are appended in the order of `c`. -/
def dictUpdate (d c : List (String × V)) : List (String × V) :=
  d.map (updEntry c) ++ c.filter (fun e => (lookupD d e.1).isNone)

/-- Python truthiness of a parsed document (`read_yaml(file_path) or {}`):
`None` and the empty dict are falsy; opaque scalar documents are kept
truthy. -/
def pyTopTruthy : PyTop V → Bool
  | PyTop.dict d => !d.isEmpty
  | PyTop.pnone => false
  | PyTop.scalar _ => true

/-- `append_yaml` (lines 51-67): read the file (raising if absent),
replace a falsy document by `{}`, `update` it with `contents`
(`AttributeError` on a non-dict), then the same directory check and
dump as `write_yaml`. -/
def append_yaml (fs : FS V) (p : FPath) (contents : List (String × V)) :
    Except FErr (FS V) :=
  match read_yaml fs p with
  | Except.error e => Except.error e
  | Except.ok t =>
      let fileContents := if pyTopTruthy t then t else PyTop.dict []
      match fileContents with
      | PyTop.dict d =>
          if !p.remote && !(fs.isdir p.dir) then
            Except.error FErr.fileNotFound
          else
            Except.ok (fs.writeData p
              (FileData.yamlData (PyTop.dict (dictUpdate d contents))))
      | _ => Except.error FErr.attributeError

/-- `write_json` (lines 105-131): same directory check as `write_yaml`,
then dump the dict as JSON (the optional custom encoder only affects
the emitted text of non-JSON-native values and is absorbed by the
symbolic document). -/
def write_json (fs : FS V) (p : FPath) (contents : List (String × V)) :
    Except FErr (FS V) :=
  if !p.remote && !(fs.isdir p.dir) then
    Except.error FErr.fileNotFound
  else
    Except.ok (fs.writeData p (FileData.jsonData (PyTop.dict contents)))

/-- `read_json` (lines 134-150): `FileNotFoundError` when the file does
not exist, else `json.loads` of its contents. -/
def read_json (fs : FS V) (p : FPath) : Except FErr (PyTop V) :=
  match fs.readData p with
  | some d => jsonLoads d
  | Option.none => Except.error FErr.fileNotFound

/-- `write_json_string` (lines 153-171): same directory check, then
write the given string verbatim. -/
def write_json_string (fs : FS V) (p : FPath) (contents : String) :
    Except FErr (FS V) :=
  if !p.remote && !(fs.isdir p.dir) then
    Except.error FErr.fileNotFound
  else
    Except.ok (fs.writeData p (FileData.rawData contents))

/-- `read_json_string` (lines 174-189): `FileNotFoundError` when the
file does not exist, else the raw contents unparsed. -/
def read_json_string (fs : FS V) (p : FPath) : Except FErr (FileData V) :=
  match fs.readData p with
  | some d => Except.ok d
  | Option.none => Except.error FErr.fileNotFound

/-- The model record `create_model` inserts for a missing model: a
fresh id and the `ModelVersion`'s metadata fields
(`ModelRequestModel`, lines 344-356). -/
def newModelOf (s : Store) (mv : ModelVersion) : MRecord :=
  { id := s.nextId, name := mv.name, license := mv.license,
    description := mv.description, audience := mv.audience,
    use_cases := mv.use_cases, limitations := mv.limitations,
    trade_offs := mv.trade_offs, ethics := mv.ethics, tags := mv.tags }

/-- Whether the auto-assigned name for a new version of the given model
collides with an existing version name — the only way the modelled
`create_model_version` can fail for a `None` request name (it cannot
happen in a store whose numeric version names denote their own
numbers). -/
def autoCreateBlocked (s : Store) (modelId : Nat) : Bool :=
  let vs := s.versionsOf modelId
  vs.any (fun r =>
    r.name == toString ((vs.map (fun x => x.number)).foldr max 0 + 1))

/-! ## Theorems -/

theorem goc_model_found (interf : Store → Store) (s : Store)
    (mv : ModelVersion) (m : MRecord)
    (h : s.models.find? (fun x => x.name == mv.name) = some m) :
    getOrCreateModel interf s mv
      = (s.bump, { mv with priv_model_id := some m.id }, Except.ok m) := by
  simp only [getOrCreateModel, Store.getModel, h]

theorem goc_model_notfound (s : Store) (mv : ModelVersion)
    (h : s.models.find? (fun x => x.name == mv.name) = Option.none) :
    getOrCreateModel (fun st => st) s mv
      = ({ s with models := s.models ++ [newModelOf s mv],
                  nextId := s.nextId + 1, calls := s.calls + 3 },
         { mv with priv_model_id := some s.nextId },
         Except.ok (newModelOf s mv)) := by
  have hany : s.models.any (fun x => x.name == mv.name) = false := by
    rw [List.any_eq_false]
    intro x hx
    exact List.find?_eq_none.mp h x hx
  simp only [getOrCreateModel, Store.getModel, Store.createModel,
    Store.bump, h, hany, Bool.false_eq_true, if_false,
    List.find?_append, Option.none_or, List.find?_cons,
    newModelOf, beq_self_eq_true]

theorem subst_nomatch (ctx : Option StepContext) (mv : ModelVersion)
    (h : ctxHasMatch ctx mv.name = false) :
    substituteFromContext ctx mv = mv := by
  cases ctx with
  | none => rfl
  | some c =>
      simp only [ctxHasMatch, Bool.or_eq_false_iff] at h
      have hfind : c.stepMVs.find? (mvMatches mv.name) = Option.none := by
        rw [List.find?_eq_none]
        intro x hx
        have := List.any_eq_false.mp h.2 x hx
        simp [this]
      simp only [substituteFromContext, hfind]
      cases hp : c.pipelineMV with
      | none => rfl
      | some p =>
          have : (p.was_created_in_this_run && p.name == mv.name) = false := by
            have := h.1
            rw [hp] at this
            simpa [mvMatches] using this
          simp [this]

/-- C1: `_get_or_create_model_version` resolves to an existing model
version when `version` is set to an identifier that resolves in the
store — fetching it via the store's `get_model_version` and creating
nothing — and, when `version` is `None` and no model version of the
same model name was created in this run's pipeline or step configs,
creates a new model version, sets `version` to the created version's
name and `was_created_in_this_run` to `True`. -/
theorem claim_C1_get_or_create_model_version :
    (∀ (ctx : Option StepContext) (s : Store) (mv : ModelVersion)
        (m : MRecord) (v : VersionVal) (r : MVRecord),
        mv.version = some v →
        pyTruthy (some v) = true →
        s.models.find? (fun x => x.name == mv.name) = some m →
        resolveVersion (s.versions.filter (fun x => x.modelId == m.id)) v
          = some r →
        getOrCreateModelVersion ctx s mv
          = ({ s with calls := s.calls + 2 },
             storeResponseIds { mv with priv_model_id := some m.id } r,
             Except.ok r))
  ∧ (∀ (ctx : Option StepContext) (s : Store) (mv : ModelVersion),
        mv.version = Option.none →
        ctxHasMatch ctx mv.name = false →
        (∀ mid, autoCreateBlocked s mid = false) →
        ∃ r : MVRecord,
          (getOrCreateModelVersion ctx s mv).2.2 = Except.ok r ∧
          (getOrCreateModelVersion ctx s mv).2.1.version
            = some (VersionVal.str r.name) ∧
          (getOrCreateModelVersion ctx s mv).2.1.was_created_in_this_run
            = true ∧
          (getOrCreateModelVersion ctx s mv).1.versions
            = s.versions ++ [r]) := by
  constructor
  · intro ctx s mv m v r hv htr hm hr
    have hgoc := goc_model_found (fun st => st) s mv m hm
    simp [getOrCreateModelVersion, hgoc, hv, htr, getModelVersionOf,
      Store.getModelVersion, Store.bump, hm, hr]
  · intro ctx s mv hv hctx hblock
    have hnum : isNumericStr "None" = false := by decide
    cases hfind : s.models.find? (fun x => x.name == mv.name) with
    | some m =>
        have hgoc := goc_model_found (fun st => st) s mv m hfind
        have hsub := subst_nomatch ctx
          { mv with priv_model_id := some m.id, version := Option.none }
          (by simpa using hctx)
        have hb := hblock m.id
        simp only [autoCreateBlocked, Store.versionsOf] at hb
        simp [getOrCreateModelVersion, hgoc, hv, hsub, createVersionPath,
          Store.createModelVersion, Store.versionsOf, Store.bump,
          pyTruthy, pyStr, hnum, storeResponseIds, hb]
    | none =>
        have hgoc := goc_model_notfound s mv hfind
        have hsub := subst_nomatch ctx
          { mv with priv_model_id := some s.nextId, version := Option.none }
          (by simpa using hctx)
        have hb := hblock s.nextId
        simp only [autoCreateBlocked, Store.versionsOf] at hb
        simp [getOrCreateModelVersion, hgoc, hv, hsub, createVersionPath,
          Store.createModelVersion, Store.versionsOf, Store.bump,
          pyTruthy, pyStr, hnum, storeResponseIds, hb, newModelOf]

/-- Witness for C1: in a store holding model `m` with version `v1`,
the configured version `v1` is fetched without creating anything; in
the empty store a `ModelVersion` with no configured version creates a
fresh model version. -/
theorem claim_C1_witness :
    (getOrCreateModelVersion Option.none
        { models := [{ id := 0, name := "m" }],
          versions := [{ id := 1, modelId := 0, name := "v1", number := 1 }],
          nextId := 2, calls := 0 }
        { name := "m", version := some (VersionVal.str "v1") }
      = ({ models := [{ id := 0, name := "m" }],
           versions := [{ id := 1, modelId := 0, name := "v1", number := 1 }],
           nextId := 2, calls := 2 },
         { name := "m", version := some (VersionVal.str "v1"),
           priv_model_id := some 0, priv_id := some 1,
           priv_number := some 1 },
         Except.ok { id := 1, modelId := 0, name := "v1", number := 1 }))
  ∧ (∃ r : MVRecord,
      (getOrCreateModelVersion Option.none ({} : Store)
          { name := "m" }).2.2 = Except.ok r ∧
      (getOrCreateModelVersion Option.none ({} : Store)
          { name := "m" }).2.1.version = some (VersionVal.str r.name) ∧
      (getOrCreateModelVersion Option.none ({} : Store)
          { name := "m" }).2.1.was_created_in_this_run = true ∧
      (getOrCreateModelVersion Option.none ({} : Store)
          { name := "m" }).1.versions = ([] : List MVRecord) ++ [r]) :=
  ⟨claim_C1_get_or_create_model_version.1 Option.none _ _
      { id := 0, name := "m" } (VersionVal.str "v1")
      { id := 1, modelId := 0, name := "v1", number := 1 }
      rfl (by decide) (by decide) (by decide),
   claim_C1_get_or_create_model_version.2 Option.none ({} : Store)
      { name := "m" } rfl rfl (fun _ => rfl)⟩

theorem resolveVersion_nil (v : VersionVal) :
    resolveVersion ([] : List MVRecord) v = Option.none := by
  cases v <;> simp [resolveVersion]

/-- Counterexample to C2 as stated: with an empty store and `version`
set to the stage name `production`, the call raises
`ReservedNameError` — yet the store *is* changed: the implicit
get-or-create of the model has already created model `m`. -/
theorem claim_C2_counterexample :
    (getOrCreateModelVersion Option.none ({} : Store)
        { name := "m", version := some (VersionVal.str "production") }).2.2
      = Except.error Err.reservedName ∧
    (getOrCreateModelVersion Option.none ({} : Store)
        { name := "m", version := some (VersionVal.str "production") }).1.models
      ≠ ({} : Store).models := by
  exact ⟨rfl, by decide⟩

theorem goc_reserved (ctx : Option StepContext) (s : Store)
    (mv : ModelVersion) (v : VersionVal)
    (hv : mv.version = some v)
    (htr : pyTruthy (some v) = true)
    (hfetch : match s.models.find? (fun x => x.name == mv.name) with
      | some m =>
          resolveVersion (s.versions.filter (fun x => x.modelId == m.id)) v
            = Option.none
      | Option.none =>
          s.versions.filter (fun x => x.modelId == s.nextId) = [])
    (hres : (modelStagesValues.contains (strLower (pyStr (some v)))
              || isNumericStr (pyStr (some v))) = true) :
    (getOrCreateModelVersion ctx s mv).2.2 = Except.error Err.reservedName ∧
    (getOrCreateModelVersion ctx s mv).1.versions = s.versions ∧
    (getOrCreateModelVersion ctx s mv).2.1.was_created_in_this_run
      = mv.was_created_in_this_run ∧
    (getOrCreateModelVersion ctx s mv).2.1.priv_id = mv.priv_id ∧
    (getOrCreateModelVersion ctx s mv).2.1.priv_number = mv.priv_number := by
  have hred : ∀ (s₂ : Store) (mv₂ : ModelVersion) (model : MRecord)
      (rq : Option String), mv₂.version = some v →
      mv₂.was_created_in_this_run = mv.was_created_in_this_run →
      mv₂.priv_id = mv.priv_id →
      mv₂.priv_number = mv.priv_number →
      (createVersionPath s₂ mv₂ model rq).2.2
          = Except.error Err.reservedName ∧
      (createVersionPath s₂ mv₂ model rq).1.versions = s₂.versions ∧
      (createVersionPath s₂ mv₂ model rq).2.1.was_created_in_this_run
          = mv.was_created_in_this_run ∧
      (createVersionPath s₂ mv₂ model rq).2.1.priv_id = mv.priv_id ∧
      (createVersionPath s₂ mv₂ model rq).2.1.priv_number
          = mv.priv_number := by
    intro s₂ mv₂ model rq hv₂ hwc hpi hpn
    by_cases hstage : strLower (pyStr (some v)) ∈ modelStagesValues
    · simp [createVersionPath, hv₂, htr, hstage, hwc, hpi, hpn]
    · have hnumv : isNumericStr (pyStr (some v)) = true := by
        cases hc : modelStagesValues.contains (strLower (pyStr (some v))) with
        | true => exact absurd (by simpa using hc) hstage
        | false => rw [hc] at hres; simpa using hres
      simp [createVersionPath, hv₂, htr, hstage, hnumv, hwc, hpi, hpn]
  cases hfind : s.models.find? (fun x => x.name == mv.name) with
  | some m =>
      rw [hfind] at hfetch
      have hgoc := goc_model_found (fun st => st) s mv m hfind
      simp [getOrCreateModelVersion, hgoc, hv, htr, getModelVersionOf,
        Store.getModelVersion, Store.bump, hfind, hfetch]
      exact hred _ _ _ _ (by rfl) (by rfl) (by rfl) (by rfl)
  | none =>
      rw [hfind] at hfetch
      have hgoc := goc_model_notfound s mv hfind
      have hfind2 : (s.models ++ [newModelOf s mv]).find?
          (fun x => x.name == mv.name) = some (newModelOf s mv) := by
        rw [List.find?_append, hfind]
        simp [newModelOf]
      simp [getOrCreateModelVersion, hgoc, hv, htr, getModelVersionOf,
        Store.getModelVersion, Store.bump, hfind, hfind2, hfetch, newModelOf,
        resolveVersion_nil]
      exact hred _ _ _ _ (by rfl) (by rfl) (by rfl) (by rfl)

/-- C2 (amended): if `_get_or_create_model_version` reaches the
creation path with a configured (truthy) `version` whose lower-cased
string form is a stage name or whose string form is numeric, it raises
`ReservedNameError`, creates no model version (the store's versions
are unchanged) and `was_created_in_this_run` stays as it was; however
the preceding `_get_or_create_model` may already have created the
model itself, so the store's models are not necessarily unchanged. -/
theorem claim_C2_reserved_name (ctx : Option StepContext) (s : Store)
    (mv : ModelVersion) (v : VersionVal)
    (hv : mv.version = some v)
    (htr : pyTruthy (some v) = true)
    (hfetch : match s.models.find? (fun x => x.name == mv.name) with
      | some m =>
          resolveVersion (s.versions.filter (fun x => x.modelId == m.id)) v
            = Option.none
      | Option.none =>
          s.versions.filter (fun x => x.modelId == s.nextId) = [])
    (hres : (modelStagesValues.contains (strLower (pyStr (some v)))
              || isNumericStr (pyStr (some v))) = true) :
    (getOrCreateModelVersion ctx s mv).2.2 = Except.error Err.reservedName ∧
    (getOrCreateModelVersion ctx s mv).1.versions = s.versions ∧
    (getOrCreateModelVersion ctx s mv).2.1.was_created_in_this_run
      = mv.was_created_in_this_run := by
  obtain ⟨h1, h2, h3, _, _⟩ := goc_reserved ctx s mv v hv htr hfetch hres
  exact ⟨h1, h2, h3⟩

/-- Witness for C2 (amended): empty store, model `m`, `version` set to
the stage name `production` — the call raises `ReservedNameError` and
creates no model version. -/
theorem claim_C2_witness :
    (getOrCreateModelVersion Option.none ({} : Store)
        { name := "m", version := some (VersionVal.str "production") }).2.2
      = Except.error Err.reservedName ∧
    (getOrCreateModelVersion Option.none ({} : Store)
        { name := "m", version := some (VersionVal.str "production") }).1.versions
      = ({} : Store).versions ∧
    (getOrCreateModelVersion Option.none ({} : Store)
        { name := "m", version := some (VersionVal.str "production") }).2.1.was_created_in_this_run
      = ({ name := "m",
           version := some (VersionVal.str "production") } : ModelVersion).was_created_in_this_run :=
  claim_C2_reserved_name Option.none ({} : Store)
    { name := "m", version := some (VersionVal.str "production") }
    (VersionVal.str "production") rfl (by decide) rfl (by decide)

theorem createVersionPath_ok (s : Store) (mv : ModelVersion)
    (model : MRecord) (rq : Option String) (r : MVRecord)
    (h : (createVersionPath s mv model rq).2.2 = Except.ok r) :
    (createVersionPath s mv model rq).2.1.priv_id = some r.id ∧
    (createVersionPath s mv model rq).2.1.priv_model_id = some r.modelId ∧
    (createVersionPath s mv model rq).2.1.priv_number = some r.number := by
  revert h
  unfold createVersionPath
  split
  · intro h; simp at h
  · split
    · intro h; simp at h
    · split
      · intro h
        obtain rfl : _ = r := by simpa using h
        simp [storeResponseIds]
      · intro h; simp at h

/-- C3: resolution is lazy and cached — when the private attribute
`_id` (`_model_id`, `_number`) is already set, the corresponding
property returns the cached value with the `ModelVersion` and the
store (in particular its round-trip counter) untouched; and a
successful `_get_or_create_model_version` sets all three private
attributes from the response. -/
theorem claim_C3_lazy_cached_properties :
    (∀ (ctx : Option StepContext) (s : Store) (mv : ModelVersion) (i : Nat),
        mv.priv_id = some i →
        idProp ctx s mv = (s, mv, Except.ok (some i)))
  ∧ (∀ (s : Store) (mv : ModelVersion) (i : Nat),
        mv.priv_model_id = some i →
        modelIdProp s mv = (s, mv, Except.ok (some i)))
  ∧ (∀ (ctx : Option StepContext) (s : Store) (mv : ModelVersion) (i : Nat),
        mv.priv_number = some i →
        numberProp ctx s mv = (s, mv, Except.ok (some i)))
  ∧ (∀ (ctx : Option StepContext) (s : Store) (mv : ModelVersion)
        (r : MVRecord),
        (getOrCreateModelVersion ctx s mv).2.2 = Except.ok r →
        (getOrCreateModelVersion ctx s mv).2.1.priv_id = some r.id ∧
        (getOrCreateModelVersion ctx s mv).2.1.priv_model_id
          = some r.modelId ∧
        (getOrCreateModelVersion ctx s mv).2.1.priv_number
          = some r.number) := by
  refine ⟨?_, ?_, ?_, ?_⟩
  · intro ctx s mv i h
    simp [idProp, h]
  · intro s mv i h
    simp [modelIdProp, h]
  · intro ctx s mv i h
    simp [numberProp, h]
  · intro ctx s mv r
    unfold getOrCreateModelVersion
    dsimp only
    split
    · intro h; simp at h
    · split
      · split
        · intro h
          obtain rfl : _ = r := by simpa using h
          simp [storeResponseIds]
        · exact fun h => createVersionPath_ok _ _ _ _ _ h
        · intro h; simp at h
      · split
        · split
          · intro h
            obtain rfl : _ = r := by simpa using h
            simp [storeResponseIds]
          · exact fun h => createVersionPath_ok _ _ _ _ _ h
          · intro h; simp at h
        · exact fun h => createVersionPath_ok _ _ _ _ _ h

/-- Witness for C3: a `ModelVersion` whose private attributes are
already set returns them without touching the store, and a successful
resolution in a one-version store sets all three attributes. -/
theorem claim_C3_witness :
    (idProp Option.none ({} : Store)
        { name := "m", priv_id := some 7 }
      = (({} : Store), { name := "m", priv_id := some 7 },
         Except.ok (some 7)))
  ∧ (modelIdProp ({} : Store) { name := "m", priv_model_id := some 5 }
      = (({} : Store), { name := "m", priv_model_id := some 5 },
         Except.ok (some 5)))
  ∧ (numberProp Option.none ({} : Store)
        { name := "m", priv_number := some 3 }
      = (({} : Store), { name := "m", priv_number := some 3 },
         Except.ok (some 3)))
  ∧ ((getOrCreateModelVersion Option.none
        { models := [{ id := 0, name := "m" }],
          versions := [{ id := 1, modelId := 0, name := "v1", number := 1 }],
          nextId := 2, calls := 0 }
        { name := "m", version := some (VersionVal.str "v1") }).2.1.priv_id
        = some 1 ∧
      (getOrCreateModelVersion Option.none
        { models := [{ id := 0, name := "m" }],
          versions := [{ id := 1, modelId := 0, name := "v1", number := 1 }],
          nextId := 2, calls := 0 }
        { name := "m", version := some (VersionVal.str "v1") }).2.1.priv_model_id
        = some 0 ∧
      (getOrCreateModelVersion Option.none
        { models := [{ id := 0, name := "m" }],
          versions := [{ id := 1, modelId := 0, name := "v1", number := 1 }],
          nextId := 2, calls := 0 }
        { name := "m", version := some (VersionVal.str "v1") }).2.1.priv_number
        = some 1) :=
  ⟨claim_C3_lazy_cached_properties.1 Option.none ({} : Store)
      { name := "m", priv_id := some 7 } 7 rfl,
   claim_C3_lazy_cached_properties.2.1 ({} : Store)
      { name := "m", priv_model_id := some 5 } 5 rfl,
   claim_C3_lazy_cached_properties.2.2.1 Option.none ({} : Store)
      { name := "m", priv_number := some 3 } 3 rfl,
   claim_C3_lazy_cached_properties.2.2.2 Option.none _ _
      { id := 1, modelId := 0, name := "v1", number := 1 } rfl⟩

theorem getModel_ok_name (s s' : Store) (n : String) (m : MRecord)
    (h : s.getModel n = (s', Except.ok m)) :
    s.models.find? (fun x => x.name == n) = some m ∧ m.name = n ∧
    s' = s.bump := by
  unfold Store.getModel at h
  cases hf : s.models.find? (fun x => x.name == n) with
  | none => rw [hf] at h; simp at h
  | some m₀ =>
      rw [hf] at h
      simp only [Prod.mk.injEq, Except.ok.injEq] at h
      obtain ⟨h1, h2⟩ := h
      subst h2
      refine ⟨rfl, ?_, h1.symm⟩
      have := List.find?_some hf
      simpa using this

/-- C4: `_get_or_create_model` always hands back the model named
`self.name` and stores its id on `_model_id`: any successful call
(under any interference) returns a model with that name and sets
`_model_id` to its id; an existing model is fetched as is; a missing
model is created from the `ModelVersion`'s metadata fields; and when
the model appears between the failed get and the create, the
`EntityExistsError` is swallowed and the existing model is fetched
instead. -/
theorem claim_C4_get_or_create_model :
    (∀ (interf : Store → Store) (s : Store) (mv : ModelVersion)
        (m : MRecord),
        (getOrCreateModel interf s mv).2.2 = Except.ok m →
        m.name = mv.name ∧
        (getOrCreateModel interf s mv).2.1.priv_model_id = some m.id)
  ∧ (∀ (interf : Store → Store) (s : Store) (mv : ModelVersion)
        (m : MRecord),
        s.models.find? (fun x => x.name == mv.name) = some m →
        getOrCreateModel interf s mv
          = (s.bump, { mv with priv_model_id := some m.id }, Except.ok m))
  ∧ (∀ (s : Store) (mv : ModelVersion),
        s.models.find? (fun x => x.name == mv.name) = Option.none →
        getOrCreateModel (fun st => st) s mv
          = ({ s with models := s.models ++ [newModelOf s mv],
                      nextId := s.nextId + 1, calls := s.calls + 3 },
             { mv with priv_model_id := some s.nextId },
             Except.ok (newModelOf s mv)) ∧
        (newModelOf s mv).name = mv.name ∧
        (newModelOf s mv).license = mv.license ∧
        (newModelOf s mv).description = mv.description ∧
        (newModelOf s mv).audience = mv.audience ∧
        (newModelOf s mv).use_cases = mv.use_cases ∧
        (newModelOf s mv).limitations = mv.limitations ∧
        (newModelOf s mv).trade_offs = mv.trade_offs ∧
        (newModelOf s mv).ethics = mv.ethics ∧
        (newModelOf s mv).tags = mv.tags)
  ∧ (∀ (interf : Store → Store) (s : Store) (mv : ModelVersion)
        (mExist : MRecord),
        s.models.find? (fun x => x.name == mv.name) = Option.none →
        (interf s.bump).models.find? (fun x => x.name == mv.name)
          = some mExist →
        getOrCreateModel interf s mv
          = (((interf s.bump).bump).bump,
             { mv with priv_model_id := some mExist.id },
             Except.ok mExist)) := by
  refine ⟨?_, ?_, ?_, ?_⟩
  · intro interf s mv m
    unfold getOrCreateModel
    dsimp only
    split
    · rename_i s₁ m₁ heq
      intro h
      obtain rfl : m₁ = m := by simpa using h
      obtain ⟨_, hname, _⟩ := getModel_ok_name _ _ _ _ heq
      exact ⟨hname, rfl⟩
    · split
      · split
        · rename_i s₄ m₄ heq
          intro h
          obtain rfl : m₄ = m := by simpa using h
          obtain ⟨_, hname, _⟩ := getModel_ok_name _ _ _ _ heq
          exact ⟨hname, rfl⟩
        · intro h; simp at h
      · split
        · rename_i s₄ m₄ heq
          intro h
          obtain rfl : m₄ = m := by simpa using h
          obtain ⟨_, hname, _⟩ := getModel_ok_name _ _ _ _ heq
          exact ⟨hname, rfl⟩
        · intro h; simp at h
      · intro h; simp at h
    · intro h; simp at h
  · intro interf s mv m hm
    exact goc_model_found interf s mv m hm
  · intro s mv hfind
    exact ⟨goc_model_notfound s mv hfind, rfl, rfl, rfl, rfl, rfl, rfl,
      rfl, rfl, rfl⟩
  · intro interf s mv mExist hfind hex
    have hname : mExist.name = mv.name := by
      have := List.find?_some hex
      simpa using this
    have hex2 : ∃ x ∈ (interf s.bump).models, x.name = mv.name :=
      ⟨mExist, List.mem_of_find?_eq_some hex, hname⟩
    simp only [Store.bump] at hex hex2
    simp [getOrCreateModel, Store.getModel, Store.createModel, Store.bump,
      hfind, hex, hex2]

/-- Witness for C4: fetching model `m` from a store that has it;
creating it in the empty store; and, under interference that inserts a
model `m` with id 9 after the failed get, swallowing the
`EntityExistsError` and fetching the inserted model. -/
theorem claim_C4_witness :
    (({ id := 0, name := "m" } : MRecord).name
        = ({ name := "m" } : ModelVersion).name ∧
      (getOrCreateModel (fun st => st)
        { models := [{ id := 0, name := "m" }], versions := [],
          nextId := 1, calls := 0 }
        { name := "m" }).2.1.priv_model_id = some 0)
  ∧ (getOrCreateModel (fun st => st) ({} : Store) { name := "m" }
      = ({ models := [newModelOf ({} : Store) { name := "m" }],
           versions := [], nextId := 1, calls := 3 },
         { name := "m", priv_model_id := some 0 },
         Except.ok (newModelOf ({} : Store) { name := "m" })))
  ∧ (getOrCreateModel
        (fun st => { st with models := st.models ++ [{ id := 9, name := "m" }] })
        ({} : Store) { name := "m" }
      = ({ models := [{ id := 9, name := "m" }], versions := [],
           nextId := 0, calls := 3 },
         { name := "m", priv_model_id := some 9 },
         Except.ok { id := 9, name := "m" })) :=
  ⟨claim_C4_get_or_create_model.1 (fun st => st)
      { models := [{ id := 0, name := "m" }], versions := [],
        nextId := 1, calls := 0 }
      { name := "m" } { id := 0, name := "m" } rfl,
   (claim_C4_get_or_create_model.2.2.1 ({} : Store) { name := "m" } rfl).1,
   claim_C4_get_or_create_model.2.2.2
      (fun st => { st with models := st.models ++ [{ id := 9, name := "m" }] })
      ({} : Store) { name := "m" } { id := 9, name := "m" } rfl (by decide)⟩

/-- C9: when `version` is a stage name or numeric string for which no
model version exists in the store, the `id` and `number` properties
catch the `ReservedNameError` raised during resolution and return
`None` instead of propagating, and the `stage` property likewise
returns `None`. -/
theorem claim_C9_properties_return_none (ctx : Option StepContext)
    (s : Store) (mv : ModelVersion) (v : VersionVal)
    (hv : mv.version = some v)
    (htr : pyTruthy (some v) = true)
    (hfetch : match s.models.find? (fun x => x.name == mv.name) with
      | some m =>
          resolveVersion (s.versions.filter (fun x => x.modelId == m.id)) v
            = Option.none
      | Option.none =>
          s.versions.filter (fun x => x.modelId == s.nextId) = [])
    (hres : (modelStagesValues.contains (strLower (pyStr (some v)))
              || isNumericStr (pyStr (some v))) = true)
    (hid : mv.priv_id = Option.none)
    (hnum : mv.priv_number = Option.none) :
    (idProp ctx s mv).2.2 = Except.ok Option.none ∧
    (numberProp ctx s mv).2.2 = Except.ok Option.none ∧
    (stageProp ctx s mv).2.2 = Except.ok Option.none := by
  obtain ⟨h1, _, _, h4, h5⟩ := goc_reserved ctx s mv v hv htr hfetch hres
  rcases hE : getOrCreateModelVersion ctx s mv with ⟨s', mv', res⟩
  rw [hE] at h1 h4 h5
  simp only at h1 h4 h5
  subst h1
  rw [hid] at h4
  rw [hnum] at h5
  refine ⟨?_, ?_, ?_⟩
  · simp [idProp, hid, hE, h4]
  · simp [numberProp, hnum, hE, h5]
  · simp [stageProp, hE]

/-- Witness for C9: empty store, `version` set to the stage name
`production` — `id`, `number` and `stage` all come back `None`. -/
theorem claim_C9_witness :
    (idProp Option.none ({} : Store)
        { name := "m", version := some (VersionVal.str "production") }).2.2
      = Except.ok Option.none ∧
    (numberProp Option.none ({} : Store)
        { name := "m", version := some (VersionVal.str "production") }).2.2
      = Except.ok Option.none ∧
    (stageProp Option.none ({} : Store)
        { name := "m", version := some (VersionVal.str "production") }).2.2
      = Except.ok Option.none :=
  claim_C9_properties_return_none Option.none ({} : Store)
    { name := "m", version := some (VersionVal.str "production") }
    (VersionVal.str "production") rfl (by decide) rfl (by decide) rfl rfl

theorem pyVersionEqV_pyStr (v w : VersionVal)
    (h : pyVersionEqV v w = true) : pyStr (some v) = pyStr (some w) := by
  cases v <;> cases w <;> simp_all [pyVersionEqV, pyStr]

theorem pyVersionEq_pyStr (v w : Option VersionVal)
    (h : pyVersionEq v w = true) : pyStr v = pyStr w := by
  cases v with
  | none =>
      cases w with
      | none => rfl
      | some b => simp [pyVersionEq] at h
  | some a =>
      cases w with
      | none => simp [pyVersionEq] at h
      | some b =>
          exact pyVersionEqV_pyStr a b (by simpa [pyVersionEq] using h)

/-- C10: `__hash__` depends only on the `name` and `version` fields;
two `ModelVersion`s with equal `name` and (Python-)equal `version`
compare equal under `__eq__` and hash equal, with no store round-trip;
and two different names compare unequal, also without touching the
store. -/
theorem claim_C10_eq_hash :
    (∀ (a b : ModelVersion), a.name = b.name → a.version = b.version →
        hashMV a = hashMV b)
  ∧ (∀ (ctx : Option StepContext) (s : Store) (a b : ModelVersion),
        a.name = b.name → pyVersionEq a.version b.version = true →
        eqMV ctx s a b = (s, Except.ok true) ∧ hashMV a = hashMV b)
  ∧ (∀ (ctx : Option StepContext) (s : Store) (a b : ModelVersion),
        a.name ≠ b.name → eqMV ctx s a b = (s, Except.ok false)) := by
  refine ⟨?_, ?_, ?_⟩
  · intro a b hn hv
    simp [hashMV, hn, hv]
  · intro ctx s a b hn hv
    constructor
    · simp [eqMV, hn, hv]
    · simp [hashMV, hn, pyVersionEq_pyStr _ _ hv]
  · intro ctx s a b hn
    simp [eqMV, hn]

/-- Witness for C10: a stage-valued and a string-valued `version` with
the same text compare equal (Python string-enum equality) and hash
alike even though other fields differ; different names compare
unequal. -/
theorem claim_C10_witness :
    (hashMV { name := "m", version := some (VersionVal.str "v1"),
              license := some "apache" }
      = hashMV { name := "m", version := some (VersionVal.str "v1"),
                 description := some "d" })
  ∧ (eqMV Option.none ({} : Store)
        { name := "m", version := some (VersionVal.stage "production") }
        { name := "m", version := some (VersionVal.str "production") }
      = (({} : Store), Except.ok true) ∧
      hashMV { name := "m", version := some (VersionVal.stage "production") }
        = hashMV { name := "m",
                   version := some (VersionVal.str "production") })
  ∧ (eqMV Option.none ({} : Store) { name := "m" } { name := "n" }
      = (({} : Store), Except.ok false)) :=
  ⟨claim_C10_eq_hash.1
      { name := "m", version := some (VersionVal.str "v1"),
        license := some "apache" }
      { name := "m", version := some (VersionVal.str "v1"),
        description := some "d" } rfl rfl,
   claim_C10_eq_hash.2.1 Option.none ({} : Store)
      { name := "m", version := some (VersionVal.stage "production") }
      { name := "m", version := some (VersionVal.str "production") }
      rfl (by decide),
   claim_C10_eq_hash.2.2 Option.none ({} : Store)
      { name := "m" } { name := "n" } (by decide)⟩

theorem readData_writeData {V : Type} (fs : FS V) (p : FPath)
    (d : FileData V) : (fs.writeData p d).readData p = some d := by
  unfold FS.readData FS.writeData
  have hnone : (fs.files.filter (fun e => !(e.1 == p))).find?
      (fun e => e.1 == p) = Option.none := by
    rw [List.find?_eq_none]
    intro x hx
    have := (List.mem_filter.mp hx).2
    simpa using this
  rw [List.find?_append, hnone]
  simp

/-- C5: for a non-remote path whose parent directory exists, reading a
file back immediately after writing it returns the dict written:
`read_yaml` after `write_yaml` and `read_json` after `write_json`. -/
theorem claim_C5_write_read_roundtrip :
    (∀ (V : Type) (fs : FS V) (p : FPath) (d : List (String × V)),
        p.remote = false → fs.isdir p.dir = true →
        ∃ fs' : FS V, write_yaml fs p d = Except.ok fs' ∧
          read_yaml fs' p = Except.ok (PyTop.dict d))
  ∧ (∀ (V : Type) (fs : FS V) (p : FPath) (d : List (String × V)),
        p.remote = false → fs.isdir p.dir = true →
        ∃ fs' : FS V, write_json fs p d = Except.ok fs' ∧
          read_json fs' p = Except.ok (PyTop.dict d)) := by
  constructor
  · intro V fs p d hrem hdir
    refine ⟨fs.writeData p (FileData.yamlData (PyTop.dict d)), ?_, ?_⟩
    · simp [write_yaml, hrem, hdir]
    · simp [read_yaml, readData_writeData, yamlSafeLoad]
  · intro V fs p d hrem hdir
    refine ⟨fs.writeData p (FileData.jsonData (PyTop.dict d)), ?_, ?_⟩
    · simp [write_json, hrem, hdir]
    · simp [read_json, readData_writeData, jsonLoads]

/-- Witness for C5: writing `{"a": "1"}` into directory `dir` and
reading it back returns the same dict, for YAML and for JSON. -/
theorem claim_C5_witness :
    (∃ fs' : FS String,
        write_yaml { dirs := ["dir"], files := [] }
            { dir := "dir", base := "f.yaml" } [("a", "1")]
          = Except.ok fs' ∧
        read_yaml fs' { dir := "dir", base := "f.yaml" }
          = Except.ok (PyTop.dict [("a", "1")]))
  ∧ (∃ fs' : FS String,
        write_json { dirs := ["dir"], files := [] }
            { dir := "dir", base := "f.json" } [("a", "1")]
          = Except.ok fs' ∧
        read_json fs' { dir := "dir", base := "f.json" }
          = Except.ok (PyTop.dict [("a", "1")])) :=
  ⟨claim_C5_write_read_roundtrip.1 String { dirs := ["dir"], files := [] }
      { dir := "dir", base := "f.yaml" } [("a", "1")] rfl (by decide),
   claim_C5_write_read_roundtrip.2 String { dirs := ["dir"], files := [] }
      { dir := "dir", base := "f.json" } [("a", "1")] rfl (by decide)⟩

/-- C6: `read_yaml`, `read_json` and `read_json_string` raise
`FileNotFoundError` exactly when the file does not exist; an existing
file is returned parsed (raw for `read_json_string`) and never raises
`FileNotFoundError`. -/
theorem claim_C6_read_file_not_found :
    (∀ (V : Type) (fs : FS V) (p : FPath),
        read_yaml fs p = Except.error FErr.fileNotFound
          ↔ fs.fileExists p = false)
  ∧ (∀ (V : Type) (fs : FS V) (p : FPath),
        read_json fs p = Except.error FErr.fileNotFound
          ↔ fs.fileExists p = false)
  ∧ (∀ (V : Type) (fs : FS V) (p : FPath),
        read_json_string fs p = Except.error FErr.fileNotFound
          ↔ fs.fileExists p = false)
  ∧ (∀ (V : Type) (fs : FS V) (p : FPath) (d : FileData V),
        fs.readData p = some d →
        read_yaml fs p = Except.ok (yamlSafeLoad d) ∧
        read_json_string fs p = Except.ok d)
  ∧ (∀ (V : Type) (fs : FS V) (p : FPath) (t : PyTop V),
        fs.readData p = some (FileData.jsonData t) →
        read_json fs p = Except.ok t) := by
  refine ⟨?_, ?_, ?_, ?_, ?_⟩
  · intro V fs p
    unfold read_yaml FS.fileExists
    cases fs.readData p <;> simp
  · intro V fs p
    unfold read_json FS.fileExists
    cases hd : fs.readData p with
    | none => simp
    | some d => cases d <;> simp [jsonLoads]
  · intro V fs p
    unfold read_json_string FS.fileExists
    cases fs.readData p <;> simp
  · intro V fs p d hd
    exact ⟨by simp [read_yaml, hd], by simp [read_json_string, hd]⟩
  · intro V fs p t hd
    simp [read_json, hd, jsonLoads]

/-- Witness for C6: a one-file filesystem — reads of the present file
succeed, reads of an absent file raise `FileNotFoundError`. -/
theorem claim_C6_witness :
    (read_yaml
        ({ dirs := ["dir"],
           files := [({ dir := "dir", base := "f" },
                      FileData.yamlData (PyTop.dict [("a", "1")]))] } : FS String)
        { dir := "dir", base := "g" } = Except.error FErr.fileNotFound
      ↔ (({ dirs := ["dir"],
            files := [({ dir := "dir", base := "f" },
                       FileData.yamlData (PyTop.dict [("a", "1")]))] } : FS String)).fileExists
          { dir := "dir", base := "g" } = false)
  ∧ (read_yaml
        ({ dirs := ["dir"],
           files := [({ dir := "dir", base := "f" },
                      FileData.yamlData (PyTop.dict [("a", "1")]))] } : FS String)
        { dir := "dir", base := "f" }
      = Except.ok (yamlSafeLoad (FileData.yamlData (PyTop.dict [("a", "1")]))) ∧
     read_json_string
        ({ dirs := ["dir"],
           files := [({ dir := "dir", base := "f" },
                      FileData.yamlData (PyTop.dict [("a", "1")]))] } : FS String)
        { dir := "dir", base := "f" }
      = Except.ok (FileData.yamlData (PyTop.dict [("a", "1")]))) :=
  ⟨claim_C6_read_file_not_found.1 String
      { dirs := ["dir"],
        files := [({ dir := "dir", base := "f" },
                   FileData.yamlData (PyTop.dict [("a", "1")]))] }
      { dir := "dir", base := "g" },
   claim_C6_read_file_not_found.2.2.2.1 String
      { dirs := ["dir"],
        files := [({ dir := "dir", base := "f" },
                   FileData.yamlData (PyTop.dict [("a", "1")]))] }
      { dir := "dir", base := "f" }
      (FileData.yamlData (PyTop.dict [("a", "1")])) rfl⟩

/-- C7: for a non-remote path whose parent directory does not exist,
`write_yaml`, `write_json` and `write_json_string` raise
`FileNotFoundError` and write nothing; for a remote path the directory
check is skipped and the write goes through. -/
theorem claim_C7_write_directory_check :
    (∀ (V : Type) (fs : FS V) (p : FPath) (d : List (String × V)),
        p.remote = false → fs.isdir p.dir = false →
        write_yaml fs p d = Except.error FErr.fileNotFound ∧
        write_json fs p d = Except.error FErr.fileNotFound)
  ∧ (∀ (V : Type) (fs : FS V) (p : FPath) (c : String),
        p.remote = false → fs.isdir p.dir = false →
        write_json_string fs p c = Except.error FErr.fileNotFound)
  ∧ (∀ (V : Type) (fs : FS V) (p : FPath) (d : List (String × V)),
        p.remote = true →
        write_yaml fs p d
          = Except.ok (fs.writeData p (FileData.yamlData (PyTop.dict d))) ∧
        write_json fs p d
          = Except.ok (fs.writeData p (FileData.jsonData (PyTop.dict d))))
  ∧ (∀ (V : Type) (fs : FS V) (p : FPath) (c : String),
        p.remote = true →
        write_json_string fs p c
          = Except.ok (fs.writeData p (FileData.rawData c))) := by
  refine ⟨?_, ?_, ?_, ?_⟩
  · intro V fs p d hrem hdir
    exact ⟨by simp [write_yaml, hrem, hdir], by simp [write_json, hrem, hdir]⟩
  · intro V fs p c hrem hdir
    simp [write_json_string, hrem, hdir]
  · intro V fs p d hrem
    exact ⟨by simp [write_yaml, hrem], by simp [write_json, hrem]⟩
  · intro V fs p c hrem
    simp [write_json_string, hrem]

/-- Witness for C7: an empty filesystem — local writes into the missing
directory `dir` fail with `FileNotFoundError`, remote writes go
through. -/
theorem claim_C7_witness :
    (write_yaml ({} : FS String) { dir := "dir", base := "f" } [("a", "1")]
        = Except.error FErr.fileNotFound ∧
     write_json ({} : FS String) { dir := "dir", base := "f" } [("a", "1")]
        = Except.error FErr.fileNotFound)
  ∧ (write_json_string ({} : FS String) { dir := "dir", base := "f" } "{}"
        = Except.error FErr.fileNotFound)
  ∧ (write_json_string ({} : FS String)
        { remote := true, dir := "s3://bucket", base := "f" } "{}"
      = Except.ok (FS.writeData ({} : FS String)
          { remote := true, dir := "s3://bucket", base := "f" }
          (FileData.rawData "{}"))) :=
  ⟨claim_C7_write_directory_check.1 String ({} : FS String)
      { dir := "dir", base := "f" } [("a", "1")] rfl rfl,
   claim_C7_write_directory_check.2.1 String ({} : FS String)
      { dir := "dir", base := "f" } "{}" rfl rfl,
   claim_C7_write_directory_check.2.2.2 String ({} : FS String)
      { remote := true, dir := "s3://bucket", base := "f" } "{}" rfl⟩

theorem lookupD_append {V : Type} (l₁ l₂ : List (String × V))
    (k : String) :
    lookupD (l₁ ++ l₂) k = (lookupD l₁ k).or (lookupD l₂ k) := by
  unfold lookupD
  rw [List.find?_append]
  cases List.find? (fun e => e.1 == k) l₁ <;> simp

theorem lookupD_cons {V : Type} (e : String × V) (l : List (String × V))
    (k : String) :
    lookupD (e :: l) k = if e.1 = k then some e.2 else lookupD l k := by
  unfold lookupD
  by_cases h : e.1 = k
  · rw [List.find?_cons_of_pos _ (by simpa using h), if_pos h]
    rfl
  · rw [List.find?_cons_of_neg _ (by simpa using h), if_neg h]

theorem updEntry_fst {V : Type} (c : List (String × V)) (e : String × V) :
    (updEntry c e).1 = e.1 := by
  unfold updEntry
  cases lookupD c e.1 <;> rfl

theorem lookupD_map_upd {V : Type} (d c : List (String × V)) (k : String) :
    lookupD (d.map (updEntry c)) k
      = match lookupD d k with
        | some _ =>
            match lookupD c k with
            | some v => some v
            | Option.none => lookupD d k
        | Option.none => Option.none := by
  induction d with
  | nil => simp [lookupD]
  | cons e d ih =>
      by_cases he : e.1 = k
      · subst he
        cases hc : lookupD c e.1 with
        | some v => simp [lookupD_cons, updEntry_fst, updEntry, hc]
        | none => simp [lookupD_cons, updEntry_fst, updEntry, hc]
      · simp [lookupD_cons, updEntry_fst, he, ih]

theorem lookupD_filter_new {V : Type} (d c : List (String × V))
    (k : String) :
    lookupD (c.filter (fun e => (lookupD d e.1).isNone)) k
      = if (lookupD d k).isSome then Option.none else lookupD c k := by
  induction c with
  | nil => simp [lookupD]
  | cons e c ih =>
      by_cases he : e.1 = k
      · subst he
        cases hd : lookupD d e.1 with
        | some v => simp [List.filter_cons, hd, lookupD_cons, ih]
        | none => simp [List.filter_cons, hd, lookupD_cons]
      · cases hd : lookupD d e.1 with
        | some v => simp [List.filter_cons, hd, lookupD_cons, he, ih]
        | none => simp [List.filter_cons, hd, lookupD_cons, he, ih]

theorem dictUpdate_lookup {V : Type} (d c : List (String × V))
    (k : String) :
    lookupD (dictUpdate d c) k = (lookupD c k).or (lookupD d k) := by
  unfold dictUpdate
  rw [lookupD_append, lookupD_map_upd, lookupD_filter_new]
  cases hc : lookupD c k <;> cases hd : lookupD d k <;> simp [hc, hd]

/-- C8: appending to an existing YAML file whose contents parse to a
mapping (or to `None`, treated as the empty mapping) rewrites the file
with the union of the old mapping and `contents`: keys of `contents`
take the value from `contents`, other old keys keep their previous
value. -/
theorem claim_C8_append_yaml (V : Type) (fs : FS V) (p : FPath)
    (contents d0 : List (String × V)) (fs' : FS V)
    (hread : fs.readData p = some (FileData.yamlData (PyTop.dict d0))
           ∨ (fs.readData p = some (FileData.yamlData PyTop.pnone)
              ∧ d0 = []))
    (happ : append_yaml fs p contents = Except.ok fs') :
    ∃ D : List (String × V),
      fs'.readData p = some (FileData.yamlData (PyTop.dict D)) ∧
      ∀ k : String,
        lookupD D k = (lookupD contents k).or (lookupD d0 k) := by
  have hfs' : fs' = fs.writeData p
      (FileData.yamlData (PyTop.dict (dictUpdate d0 contents))) := by
    rcases hread with hread | ⟨hread, rfl⟩
    · cases d0 with
      | nil =>
          simp [append_yaml, read_yaml, hread, yamlSafeLoad,
            pyTopTruthy] at happ
          split at happ
          · simp at happ
          · simp at happ
            exact happ.symm
      | cons a d0' =>
          simp [append_yaml, read_yaml, hread, yamlSafeLoad,
            pyTopTruthy] at happ
          split at happ
          · simp at happ
          · simp at happ
            exact happ.symm
    · simp [append_yaml, read_yaml, hread, yamlSafeLoad,
        pyTopTruthy] at happ
      split at happ
      · simp at happ
      · simp at happ
        exact happ.symm
  subst hfs'
  exact ⟨dictUpdate d0 contents, readData_writeData _ _ _,
    fun k => dictUpdate_lookup d0 contents k⟩

/-- Witness for C8: appending `{"b": "3", "c": "4"}` to a file holding
`{"a": "1", "b": "2"}` leaves a mapping in which `b` and `c` come from
the appended contents and `a` keeps its old value. -/
theorem claim_C8_witness :
    ∃ D : List (String × String),
      (FS.readData
        { dirs := ["dir"],
          files := [({ dir := "dir", base := "f" },
            FileData.yamlData (PyTop.dict
              [("a", "1"), ("b", "3"), ("c", "4")]))] }
        { dir := "dir", base := "f" })
        = some (FileData.yamlData (PyTop.dict D)) ∧
      ∀ k : String,
        lookupD D k
          = (lookupD [("b", "3"), ("c", "4")] k).or
              (lookupD [("a", "1"), ("b", "2")] k) :=
  claim_C8_append_yaml String
    { dirs := ["dir"],
      files := [({ dir := "dir", base := "f" },
        FileData.yamlData (PyTop.dict [("a", "1"), ("b", "2")]))] }
    { dir := "dir", base := "f" }
    [("b", "3"), ("c", "4")] [("a", "1"), ("b", "2")]
    { dirs := ["dir"],
      files := [({ dir := "dir", base := "f" },
        FileData.yamlData (PyTop.dict
          [("a", "1"), ("b", "3"), ("c", "4")]))] }
    (Or.inl rfl) rfl

end Zen
